import Mathlib

/-!
Verification of the developer scripts of this repository (a build runner
`build.py`, a quality checker `check.py`, and a dev-server launcher `dev.py`)
against their natural-language specification.

The scripts are shallowly embedded: each external effect (the result of a
spawned command, the existence of a file or directory, the availability of
the `grep` utility) is a field of an explicit environment record, and each
entry point is a pure function from its parsed flags and such an environment
to the list of external commands it launches together with its process exit
status.  Lines of text are `List Char`.
-/

/-! ## Character classes of the grep pattern `[^a-zA-Z_][0-9]{2,}` -/

/-- A character matched by the bracket expression `[a-zA-Z_]`. -/
def isWordAlpha (c : Char) : Bool :=
  (('a' ≤ c && c ≤ 'z') || ('A' ≤ c && c ≤ 'Z')) || c = '_'

/-- A character matched by `[0-9]`. -/
def isDigitChar (c : Char) : Bool :=
  '0' ≤ c && c ≤ '9'

/-- Whether a list of characters starts with at least two consecutive digits:
the suffix `[0-9]{2,}` of the grep pattern matches at its head. -/
def twoDigitStart : List Char → Bool
  | a :: b :: _ => isDigitChar a && isDigitChar b
  | _ => false

/-- Line-match semantics of the extended regular expression
`[^a-zA-Z_][0-9]{2,}` used by `search_magic_numbers` in `src/check.py`
(line 83): the line contains a character that is not a letter or an
underscore immediately followed by at least two digits. -/
def magicMatch : List Char → Bool
  | [] => false
  | c :: rest => ((!(isWordAlpha c)) && twoDigitStart rest) || magicMatch rest

/-- Rendering of the specification's words for Scan 1, for comparison with
`magicMatch`: the line contains a run of two or more consecutive digits that
is not immediately preceded by a letter or an underscore, where a run at the
very start of the line (no preceding character at all) also qualifies. -/
def specNumericLiteralMatch (l : List Char) : Bool :=
  twoDigitStart l || magicMatch l

/-! ## Substring containment (Python's `in` operator on strings) -/

/-- Whether `pat` occurs at the head of `l`. -/
def startsWithList : List Char → List Char → Bool
  | [], _ => true
  | _ :: _, [] => false
  | p :: ps, c :: cs => (p == c) && startsWithList ps cs

/-- Whether `pat` occurs as a contiguous substring of `l`: Python's
`pat in l`. -/
def containsSub (pat : List Char) : List Char → Bool
  | [] => startsWithList pat []
  | c :: cs => startsWithList pat (c :: cs) || containsSub pat cs

/-! ## The two grep-based scans of `src/check.py` -/

/-- One line of a scanned source file, as seen by `grep -rn`: `loc` stands
for the `file:lineno:` prefix grep prepends and `content` is the line text.
-/
structure SrcLine where
  loc : List Char
  content : List Char
deriving DecidableEq

/-- The output line grep emits for a matching source line. -/
def outLine (s : SrcLine) : List Char :=
  s.loc ++ s.content

/-- Environment of one grep-based scan: whether the `grep` executable can be
found, and the lines of the `.ts`/`.tsx` files under `src/` that grep would
traverse. -/
structure ScanEnv where
  grepAvailable : Bool
  srcLines : List SrcLine
deriving DecidableEq

/-- Output lines of the grep invocation of `search_magic_numbers`
(`src/check.py` lines 81-86): the source lines whose content matches the
numeric-literal pattern, rendered as `file:lineno:content`. -/
def grepMagicLines (src : List SrcLine) : List (List Char) :=
  (src.filter (fun s => magicMatch s.content)).map outLine

/-- Output lines of the grep invocation of `search_console_log`
(`src/check.py` lines 115-120): the source lines whose content contains the
literal `console.log`. -/
def grepConsoleLines (src : List SrcLine) : List (List Char) :=
  (src.filter (fun s => containsSub ("console.log".toList) s.content)).map outLine

/-- grep's exit status: 0 when at least one line matched, 1 otherwise. -/
def grepRc (lines : List (List Char)) : Nat :=
  if lines.isEmpty then 1 else 0

/-- Result of one scan: the boolean the Python function returns, the match
list after exemption filtering, the matches actually printed, and the
remainder count printed after them (if any). -/
structure ScanOutput where
  passed : Bool
  matchList : List (List Char)
  shown : List (List Char)
  rest : Option Nat
deriving DecidableEq

/-- `search_magic_numbers` of `src/check.py` (lines 76-107).  A missing
`grep` raises `FileNotFoundError`, caught and turned into a skip that
returns `True`; a non-zero grep status is reported as "no magic numbers";
otherwise the output lines are filtered by the TailwindCSS exemption
(`'className=' not in line and 'class="' not in line`), the first 10
filtered matches are printed and the remainder is summarised as a count. -/
def search_magic_numbers (env : ScanEnv) : ScanOutput :=
  if env.grepAvailable then
    let lines := grepMagicLines env.srcLines
    if grepRc lines = 0 then
      let filtered := lines.filter
        (fun l => (!(containsSub ("className=".toList) l)) &&
                  (!(containsSub ("class=\"".toList) l)))
      { passed := true
        matchList := filtered
        shown := filtered.take 10
        rest := if 10 < filtered.length then some (filtered.length - 10) else none }
    else
      { passed := true, matchList := [], shown := [], rest := none }
  else
    { passed := true, matchList := [], shown := [], rest := none }

/-- `search_console_log` of `src/check.py` (lines 110-141): same shape as
`search_magic_numbers`, with the literal pattern `console.log` and the
exemption `'errorHandler.ts' not in line`. -/
def search_console_log (env : ScanEnv) : ScanOutput :=
  if env.grepAvailable then
    let lines := grepConsoleLines env.srcLines
    if grepRc lines = 0 then
      let filtered := lines.filter
        (fun l => !(containsSub ("errorHandler.ts".toList) l))
      { passed := true
        matchList := filtered
        shown := filtered.take 10
        rest := if 10 < filtered.length then some (filtered.length - 10) else none }
    else
      { passed := true, matchList := [], shown := [], rest := none }
  else
    { passed := true, matchList := [], shown := [], rest := none }

/-! ## The quality pipeline `src/check.py` -/

/-- `run_type_check` of `src/check.py` (lines 37-49): runs `npm run
type-check` with `check=True`; `typeCheckOk` records whether the spawned
command exited with status zero.  On success the function returns `True`,
a `CalledProcessError` is caught and turns into `False`. -/
def run_type_check (typeCheckOk : Bool) : Bool :=
  if typeCheckOk then true else false

/-- `run_code_quality_check` of `src/check.py` (lines 52-73): a missing
`scripts/check-code-quality.sh` is a skip returning `True`; otherwise the
script is run with `check=False` (its exit status `scriptExit` is never
consulted) and any exception is caught; every branch returns `True`. -/
def run_code_quality_check (scriptExists : Bool) (scriptRaises : Bool)
    (scriptExit : Nat) : Bool :=
  if !scriptExists then true
  else if scriptRaises then true
  else true

/-- Environment of one run of `src/check.py`. -/
structure CheckEnv where
  typeCheckOk : Bool
  scriptExists : Bool
  scriptRaises : Bool
  scriptExit : Nat
  magicEnv : ScanEnv
  consoleEnv : ScanEnv

/-- `main` of `src/check.py` (lines 144-189): runs the type check, then —
unless `--quick` was given — the three further checks, and exits 0 exactly
when every accumulated result is `True`. -/
def checkMain (quick : Bool) (env : CheckEnv) : Nat :=
  let results : List (String × Bool) :=
    [("TypeScript型チェック", run_type_check env.typeCheckOk)] ++
    (if !quick then
      [("コード品質", run_code_quality_check env.scriptExists env.scriptRaises env.scriptExit),
       ("マジックナンバー", (search_magic_numbers env.magicEnv).passed),
       ("console.log", (search_console_log env.consoleEnv).passed)]
     else [])
  if results.all (fun r => r.2) then 0 else 1

/-! ## The build pipeline `src/build.py` -/

/-- Outcome of a Python expression: either a value or a raised exception. -/
inductive PyResult (α : Type) where
  | ok (a : α)
  | raised (msg : String)
deriving DecidableEq

/-- `subprocess.run(command, check=True, shell=True)` as used by
`run_command` in `src/build.py` (line 41): returns normally when the
command exits with status zero and raises `CalledProcessError` otherwise.
-/
def subprocessRunCheckTrue (exitCode : Nat) : PyResult Unit :=
  if exitCode = 0 then PyResult.ok () else PyResult.raised "CalledProcessError"

/-- `run_command` of `src/build.py` (lines 31-46): prints a banner with
`description`, runs `command` (whose exit status is `exitCode`), and maps
success to `True` and a caught `CalledProcessError` to `False`. -/
def run_command (command description : String) (exitCode : Nat) : PyResult Bool :=
  match subprocessRunCheckTrue exitCode with
  | PyResult.ok _ => PyResult.ok true
  | PyResult.raised _ => PyResult.ok false

/-- Parsed command-line flags of `src/build.py`. -/
structure BuildArgs where
  tauri : Bool
  check_only : Bool
  skip_check : Bool
deriving DecidableEq

/-- External outcomes visible to one run of `src/build.py`: the exit status
of each command it might spawn, phrased as success booleans. -/
structure BuildEnv where
  typeCheckOk : Bool
  webBuildOk : Bool
  tauriBuildOk : Bool
deriving DecidableEq

/-- The external commands `src/build.py` can spawn. -/
inductive BuildCmd where
  | typeCheck
  | webBuild
  | tauriBuild
deriving DecidableEq

/-- Observable result of one run of `src/build.py`: the commands spawned,
in order, and the process exit status. -/
structure BuildRun where
  invoked : List BuildCmd
  exitCode : Nat
deriving DecidableEq

/-- `check_types` of `src/build.py` (lines 49-52): the boolean
`run_command` yields for `npm run type-check`. -/
def check_types (env : BuildEnv) : Bool :=
  env.typeCheckOk

/-- `main` of `src/build.py` (lines 80-133): unless `--skip-check`, run the
type check and exit 1 on failure; then exit 0 if `--check-only`; otherwise
run the Tauri or the web build and exit by its success. -/
def buildMain (args : BuildArgs) (env : BuildEnv) : BuildRun :=
  if !args.skip_check then
    if !(check_types env) then
      { invoked := [BuildCmd.typeCheck], exitCode := 1 }
    else if args.check_only then
      { invoked := [BuildCmd.typeCheck], exitCode := 0 }
    else if args.tauri then
      { invoked := [BuildCmd.typeCheck, BuildCmd.tauriBuild]
        exitCode := if env.tauriBuildOk then 0 else 1 }
    else
      { invoked := [BuildCmd.typeCheck, BuildCmd.webBuild]
        exitCode := if env.webBuildOk then 0 else 1 }
  else
    if args.check_only then
      { invoked := [], exitCode := 0 }
    else if args.tauri then
      { invoked := [BuildCmd.tauriBuild]
        exitCode := if env.tauriBuildOk then 0 else 1 }
    else
      { invoked := [BuildCmd.webBuild]
        exitCode := if env.webBuildOk then 0 else 1 }

/-! ## The dev-server pipeline `src/dev.py` -/

/-- External world visible to one run of `src/dev.py`. -/
structure DevEnv where
  nodeModulesExists : Bool
  npmAvailable : Bool
  tauriRunOk : Bool
deriving DecidableEq

/-- The external commands `src/dev.py` can spawn. -/
inductive DevCmd where
  | npmRunDev
  | npmRunTauriDev
deriving DecidableEq

/-- Observable result of one run of `src/dev.py`: the commands launched and
the process exit status — `none` when the script keeps streaming the dev
server's output instead of exiting. -/
structure DevRun where
  launched : List DevCmd
  exitCode : Option Nat
deriving DecidableEq

/-- `check_node_modules` of `src/dev.py` (lines 39-50): `True` exactly when
the `node_modules` directory exists. -/
def check_node_modules (env : DevEnv) : Bool :=
  env.nodeModulesExists

/-- `start_web_dev` of `src/dev.py` (lines 53-108): spawns `npm run dev` in
the background, opens the browser and relays output (no exit of its own);
a missing `npm` raises `FileNotFoundError`, caught with `sys.exit(1)`. -/
def start_web_dev (env : DevEnv) : DevRun :=
  if env.npmAvailable then
    { launched := [DevCmd.npmRunDev], exitCode := none }
  else
    { launched := [], exitCode := some 1 }

/-- `start_tauri_dev` of `src/dev.py` (lines 111-137): runs
`npm run tauri:dev` to completion; a missing `npm` exits 1 before any
launch, a `CalledProcessError` exits 1, success falls through to a normal
exit 0. -/
def start_tauri_dev (env : DevEnv) : DevRun :=
  if !env.npmAvailable then
    { launched := [], exitCode := some 1 }
  else if env.tauriRunOk then
    { launched := [DevCmd.npmRunTauriDev], exitCode := some 0 }
  else
    { launched := [DevCmd.npmRunTauriDev], exitCode := some 1 }

/-- `main` of `src/dev.py` (lines 140-172): exits 1 when `node_modules` is
missing, otherwise dispatches on `--tauri`. -/
def devMain (tauri : Bool) (env : DevEnv) : DevRun :=
  if !(check_node_modules env) then
    { launched := [], exitCode := some 1 }
  else if tauri then
    start_tauri_dev env
  else
    start_web_dev env

/-! ## Concrete inputs used to instantiate the theorems below -/

/-- A source line consisting of exactly a two-digit run. -/
def line42 : List Char := "42".toList

/-- A scanned file line whose content is `line42`. -/
def srcLine42 : SrcLine :=
  { loc := "src/a.ts:1:".toList, content := line42 }

/-- A line with a TailwindCSS class attribute containing a numeric token. -/
def tailwindLine : SrcLine :=
  { loc := "src/App.tsx:7:".toList, content := "<div className=\"p-10\">".toList }

/-- Scan environment containing only the Tailwind line. -/
def c2Env : ScanEnv :=
  { grepAvailable := true, srcLines := [tailwindLine] }

/-- A non-exempt line matching the numeric-literal pattern. -/
def magicLine : SrcLine :=
  { loc := "src/b.ts:2:".toList, content := " 42".toList }

/-- Scan environment with twelve non-exempt numeric-literal matches. -/
def c3MagicEnv : ScanEnv :=
  { grepAvailable := true, srcLines := List.replicate 12 magicLine }

/-- Scan environment with a single non-exempt `console.log` match. -/
def c3ConsoleEnv : ScanEnv :=
  { grepAvailable := true
    srcLines := [{ loc := "src/c.ts:3:".toList, content := "console.log(1)".toList }] }

/-- Scan environment in which grep is unavailable and nothing matches. -/
def c4MagicEnv : ScanEnv :=
  { grepAvailable := false, srcLines := [] }

/-- Second copy of the grep-less environment, for the console scan. -/
def c4ConsoleEnv : ScanEnv :=
  { grepAvailable := false, srcLines := [] }

/-- Flags `--check-only` alone. -/
def c5Args : BuildArgs :=
  { tauri := false, check_only := true, skip_check := false }

/-- Build environment where every spawned command succeeds. -/
def c5Env : BuildEnv :=
  { typeCheckOk := true, webBuildOk := true, tauriBuildOk := true }

/-- Flags `--check-only --skip-check` together. -/
def c6Args : BuildArgs :=
  { tauri := false, check_only := true, skip_check := true }

/-- Build environment with a failing type check. -/
def c6Env : BuildEnv :=
  { typeCheckOk := false, webBuildOk := true, tauriBuildOk := true }

/-- Flags `--skip-check` alone. -/
def c6AmArgs : BuildArgs :=
  { tauri := false, check_only := false, skip_check := true }

/-- Dev environment with no `node_modules` directory. -/
def c8Env : DevEnv :=
  { nodeModulesExists := false, npmAvailable := true, tauriRunOk := true }

/-- Quality-pipeline environment with a passing type check. -/
def c9Env : CheckEnv :=
  { typeCheckOk := true, scriptExists := true, scriptRaises := false
    scriptExit := 0
    magicEnv := { grepAvailable := true, srcLines := [] }
    consoleEnv := { grepAvailable := true, srcLines := [] } }

/-! ## Helper lemmas shared by the claim theorems -/

/-- Every branch of `search_magic_numbers` returns `True`. -/
theorem search_magic_numbers_passed (env : ScanEnv) :
    (search_magic_numbers env).passed = true := by
  unfold search_magic_numbers
  split
  · dsimp only
    split <;> rfl
  · rfl

/-- Every branch of `search_console_log` returns `True`. -/
theorem search_console_log_passed (env : ScanEnv) :
    (search_console_log env).passed = true := by
  unfold search_console_log
  split
  · dsimp only
    split <;> rfl
  · rfl

/-- In every branch of `search_magic_numbers`, the printed matches are the
first ten filtered matches and the remainder count is present exactly when
more than ten matches survived the exemption filter. -/
theorem search_magic_numbers_shape (env : ScanEnv) :
    (search_magic_numbers env).shown = (search_magic_numbers env).matchList.take 10 ∧
    (search_magic_numbers env).rest =
      (if 10 < (search_magic_numbers env).matchList.length then
        some ((search_magic_numbers env).matchList.length - 10) else none) := by
  unfold search_magic_numbers
  split
  · dsimp only
    split
    · exact ⟨rfl, rfl⟩
    · exact ⟨rfl, rfl⟩
  · exact ⟨rfl, rfl⟩

/-- Same shape fact for `search_console_log`. -/
theorem search_console_log_shape (env : ScanEnv) :
    (search_console_log env).shown = (search_console_log env).matchList.take 10 ∧
    (search_console_log env).rest =
      (if 10 < (search_console_log env).matchList.length then
        some ((search_console_log env).matchList.length - 10) else none) := by
  unfold search_console_log
  split
  · dsimp only
    split
    · exact ⟨rfl, rfl⟩
    · exact ⟨rfl, rfl⟩
  · exact ⟨rfl, rfl⟩

/-! ## Claim theorems -/

/-- C1 counterexample: the line consisting of exactly the two-digit run
`42` satisfies the specification's predicate (a run of two or more digits
at the very start of the line, with no preceding character) yet the grep
pattern `[^a-zA-Z_][0-9]{2,}` does not match it, and the numeric-literal
scan does not flag it: the claimed equivalence fails on this line. -/
theorem numericScan_startOfLine_counterexample :
    specNumericLiteralMatch line42 = true ∧
    magicMatch line42 = false ∧
    grepMagicLines [srcLine42] = [] := by
  decide

/-- C1 (amended): the numeric-literal scan matches a line exactly when the
line contains a character that is not a letter or an underscore followed
immediately by two or more consecutive digits; a digit run at the very
start of the line, having no preceding character, does not qualify by
itself. -/
theorem magicMatch_characterization (l : List Char) :
    magicMatch l = true ↔
      ∃ pre c rest, l = pre ++ c :: rest ∧
        isWordAlpha c = false ∧ twoDigitStart rest = true := by
  induction l with
  | nil =>
    constructor
    · intro h
      simp [magicMatch] at h
    · rintro ⟨pre, c, rest, heq, -, -⟩
      exact absurd heq.symm (by simp)
  | cons a l ih =>
    constructor
    · intro h
      rcases Bool.or_eq_true_iff.mp h with h1 | h2
      · obtain ⟨ha, hd⟩ := Bool.and_eq_true_iff.mp h1
        exact ⟨[], a, l, rfl, by simpa using ha, hd⟩
      · obtain ⟨pre, c, rest, heq, hc, hd⟩ := ih.mp h2
        exact ⟨a :: pre, c, rest, by rw [heq]; rfl, hc, hd⟩
    · rintro ⟨pre, c, rest, heq, hc, hd⟩
      show (((!(isWordAlpha a)) && twoDigitStart l) || magicMatch l) = true
      apply Bool.or_eq_true_iff.mpr
      cases pre with
      | nil =>
        left
        have hpair : a = c ∧ l = rest := by simpa using heq
        obtain ⟨h1, h2⟩ := hpair
        subst h1
        subst h2
        exact Bool.and_eq_true_iff.mpr ⟨by simp [hc], hd⟩
      | cons p ps =>
        right
        have hpair : a = p ∧ l = ps ++ c :: rest := by simpa using heq
        exact ih.mpr ⟨ps, c, rest, hpair.2, hc, hd⟩

/-- C1 witness: the amended characterization instantiated on the concrete
line consisting of a space followed by `42`. -/
theorem magicMatch_characterization_witness :
    magicMatch (" 42".toList) = true :=
  (magicMatch_characterization (" 42".toList)).mpr
    ⟨[], ' ', "42".toList, rfl, by decide, by decide⟩

/-- C2: a scanned source line that carries a styling-class attribute marker
(`className=` or `class="`) together with a token matching the
numeric-literal pattern never appears in the match set the scan reports:
the Tailwind exemption takes precedence over the raw pattern match. -/
theorem tailwind_exemption_excludes (env : ScanEnv) (s : SrcLine)
    (hmem : s ∈ env.srcLines) (htok : magicMatch s.content = true)
    (hmark : containsSub ("className=".toList) (outLine s) = true ∨
             containsSub ("class=\"".toList) (outLine s) = true) :
    outLine s ∉ (search_magic_numbers env).matchList := by
  intro hin
  unfold search_magic_numbers at hin
  split at hin
  · dsimp only at hin
    split at hin
    · have hp := (List.mem_filter.mp hin).2
      obtain ⟨h1, h2⟩ := Bool.and_eq_true_iff.mp hp
      rcases hmark with hm | hm
      · rw [hm] at h1
        exact absurd h1 (by decide)
      · rw [hm] at h2
        exact absurd h2 (by decide)
    · exact absurd hin (by simp)
  · exact absurd hin (by simp)

/-- C2 witness: a concrete Tailwind line (`<div className="p-10">`) whose
content matches the numeric pattern is excluded from the reported set. -/
theorem tailwind_exemption_excludes_witness :
    outLine tailwindLine ∉ (search_magic_numbers c2Env).matchList :=
  tailwind_exemption_excludes c2Env tailwindLine (by decide) (by decide)
    (Or.inl (by decide))

/-- C3: in both scans, when more than ten matches survive the exemption
filter exactly the first ten are printed together with a remainder count of
`length - 10`, and when at most ten survive all of them are printed with no
remainder count. -/
theorem scan_display_truncation (envM envC : ScanEnv) :
    (10 < (search_magic_numbers envM).matchList.length →
      (search_magic_numbers envM).shown = (search_magic_numbers envM).matchList.take 10 ∧
      (search_magic_numbers envM).shown.length = 10 ∧
      (search_magic_numbers envM).rest =
        some ((search_magic_numbers envM).matchList.length - 10)) ∧
    ((search_magic_numbers envM).matchList.length ≤ 10 →
      (search_magic_numbers envM).shown = (search_magic_numbers envM).matchList ∧
      (search_magic_numbers envM).rest = none) ∧
    (10 < (search_console_log envC).matchList.length →
      (search_console_log envC).shown = (search_console_log envC).matchList.take 10 ∧
      (search_console_log envC).shown.length = 10 ∧
      (search_console_log envC).rest =
        some ((search_console_log envC).matchList.length - 10)) ∧
    ((search_console_log envC).matchList.length ≤ 10 →
      (search_console_log envC).shown = (search_console_log envC).matchList ∧
      (search_console_log envC).rest = none) := by
  obtain ⟨hsM, hrM⟩ := search_magic_numbers_shape envM
  obtain ⟨hsC, hrC⟩ := search_console_log_shape envC
  refine ⟨fun h => ⟨hsM, ?_, ?_⟩, fun h => ⟨?_, ?_⟩,
          fun h => ⟨hsC, ?_, ?_⟩, fun h => ⟨?_, ?_⟩⟩
  · rw [hsM, List.length_take]
    exact Nat.min_eq_left h.le
  · rw [hrM, if_pos h]
  · rw [hsM]
    exact List.take_of_length_le h
  · rw [hrM, if_neg (Nat.not_lt.mpr h)]
  · rw [hsC, List.length_take]
    exact Nat.min_eq_left h.le
  · rw [hrC, if_pos h]
  · rw [hsC]
    exact List.take_of_length_le h
  · rw [hrC, if_neg (Nat.not_lt.mpr h)]

/-- C3 witness: with twelve surviving numeric-literal matches exactly ten
are shown and the remainder count is two; with a single surviving
`console.log` match everything is shown and no remainder is printed. -/
theorem scan_display_truncation_witness :
    (search_magic_numbers c3MagicEnv).shown.length = 10 ∧
    (search_magic_numbers c3MagicEnv).rest = some 2 ∧
    (search_console_log c3ConsoleEnv).shown = (search_console_log c3ConsoleEnv).matchList ∧
    (search_console_log c3ConsoleEnv).rest = none := by
  have h := scan_display_truncation c3MagicEnv c3ConsoleEnv
  have h10 : 10 < (search_magic_numbers c3MagicEnv).matchList.length := by decide
  have hle : (search_console_log c3ConsoleEnv).matchList.length ≤ 10 := by decide
  have hlen : (search_magic_numbers c3MagicEnv).matchList.length = 12 := by decide
  refine ⟨(h.1 h10).2.1, ?_, (h.2.2.2 hle).1, (h.2.2.2 hle).2⟩
  rw [(h.1 h10).2.2, hlen]

/-- C4: for each scan, when the source tree contains zero lines matched by
the grep pattern the scan returns pass with an empty reported match list,
and when the grep utility is unavailable the scan still returns pass as a
skipped check. -/
theorem scan_empty_and_missing_grep (envM envC : ScanEnv) :
    (grepMagicLines envM.srcLines = [] →
      (search_magic_numbers envM).passed = true ∧
      (search_magic_numbers envM).matchList = []) ∧
    (grepConsoleLines envC.srcLines = [] →
      (search_console_log envC).passed = true ∧
      (search_console_log envC).matchList = []) ∧
    (envM.grepAvailable = false → (search_magic_numbers envM).passed = true) ∧
    (envC.grepAvailable = false → (search_console_log envC).passed = true) := by
  refine ⟨fun hM => ⟨search_magic_numbers_passed envM, ?_⟩,
          fun hC => ⟨search_console_log_passed envC, ?_⟩,
          fun _ => search_magic_numbers_passed envM,
          fun _ => search_console_log_passed envC⟩
  · unfold search_magic_numbers
    split
    · dsimp only
      rw [hM]
      split <;> rfl
    · rfl
  · unfold search_console_log
    split
    · dsimp only
      rw [hC]
      split <;> rfl
    · rfl

/-- C4 witness: a grep-less environment with no source lines yields pass
and an empty reported match list for both scans. -/
theorem scan_empty_and_missing_grep_witness :
    (search_magic_numbers c4MagicEnv).passed = true ∧
    (search_magic_numbers c4MagicEnv).matchList = [] ∧
    (search_console_log c4ConsoleEnv).passed = true ∧
    (search_console_log c4ConsoleEnv).matchList = [] := by
  have h := scan_empty_and_missing_grep c4MagicEnv c4ConsoleEnv
  exact ⟨h.2.2.1 rfl, (h.1 rfl).2, h.2.2.2 rfl, (h.2.1 rfl).2⟩

/-- C5: whenever `--check-only` is among the flags, the build pipeline
never invokes the web build nor the desktop build, whatever the other
flags; the exit status is decided by the type check alone — 0 exactly when
the type check passed when it runs, and 0 unconditionally when
`--skip-check` suppressed it. -/
theorem check_only_never_builds (args : BuildArgs) (env : BuildEnv)
    (hco : args.check_only = true) :
    BuildCmd.webBuild ∉ (buildMain args env).invoked ∧
    BuildCmd.tauriBuild ∉ (buildMain args env).invoked ∧
    (args.skip_check = false →
      (buildMain args env).exitCode = if env.typeCheckOk then 0 else 1) ∧
    (args.skip_check = true → (buildMain args env).exitCode = 0) := by
  rcases args with ⟨t, co, sk⟩
  rcases env with ⟨tc, wb, tb⟩
  cases hco
  cases t <;> cases sk <;> cases tc <;> cases wb <;> cases tb <;> decide

/-- C5 witness: `--check-only` with a passing type check invokes no build
and exits 0. -/
theorem check_only_never_builds_witness :
    BuildCmd.webBuild ∉ (buildMain c5Args c5Env).invoked ∧
    BuildCmd.tauriBuild ∉ (buildMain c5Args c5Env).invoked ∧
    (buildMain c5Args c5Env).exitCode = 0 := by
  have h := check_only_never_builds c5Args c5Env rfl
  exact ⟨h.1, h.2.1, (h.2.2.1 rfl).trans (by decide)⟩

/-- C6 counterexample: with `--skip-check --check-only` the type check is
indeed not invoked, but the build step does not proceed either — no build
command is executed at all — refuting the claim that under `--skip-check`
the build proceeds unconditionally. -/
theorem skip_check_counterexample :
    c6Args.skip_check = true ∧
    BuildCmd.typeCheck ∉ (buildMain c6Args c6Env).invoked ∧
    BuildCmd.webBuild ∉ (buildMain c6Args c6Env).invoked ∧
    BuildCmd.tauriBuild ∉ (buildMain c6Args c6Env).invoked := by
  decide

/-- C6 (amended): with `--skip-check` the type check is never invoked, and
unless `--check-only` is also given a build command (web or desktop) is
executed without any type-check result gating it. -/
theorem skip_check_amended (args : BuildArgs) (env : BuildEnv)
    (hsk : args.skip_check = true) :
    BuildCmd.typeCheck ∉ (buildMain args env).invoked ∧
    (args.check_only = false →
      (BuildCmd.webBuild ∈ (buildMain args env).invoked ∨
       BuildCmd.tauriBuild ∈ (buildMain args env).invoked)) := by
  rcases args with ⟨t, co, sk⟩
  rcases env with ⟨tc, wb, tb⟩
  cases hsk
  cases t <;> cases co <;> cases tc <;> cases wb <;> cases tb <;> decide

/-- C6 witness: `--skip-check` alone skips the type check and runs the web
build. -/
theorem skip_check_amended_witness :
    BuildCmd.typeCheck ∉ (buildMain c6AmArgs c6Env).invoked ∧
    (BuildCmd.webBuild ∈ (buildMain c6AmArgs c6Env).invoked ∨
     BuildCmd.tauriBuild ∈ (buildMain c6AmArgs c6Env).invoked) := by
  have h := skip_check_amended c6AmArgs c6Env rfl
  exact ⟨h.1, h.2 rfl⟩

/-- C7: for every command line, description and exit status of the spawned
command, `run_command` returns normally — never propagating an exception —
with `True` exactly when the command exited with status zero. -/
theorem run_command_boolean (command description : String) (exitCode : Nat) :
    run_command command description exitCode = PyResult.ok (exitCode == 0) := by
  unfold run_command subprocessRunCheckTrue
  by_cases h : exitCode = 0
  · subst h
    rfl
  · rw [if_neg h]
    simp [Nat.beq_eq_true_eq, h]

/-- C7 witness: a command exiting with status 3 yields the value `False`
rather than an exception. -/
theorem run_command_boolean_witness :
    run_command ("npm run build") ("build step") 3 = PyResult.ok false :=
  (run_command_boolean ("npm run build") ("build step") 3).trans (by decide)

/-- C8: when the `node_modules` directory is missing, the dev pipeline —
in web as well as in desktop mode — exits with status 1 without launching
any external process. -/
theorem missing_node_modules_fatal (tauri : Bool) (env : DevEnv)
    (h : env.nodeModulesExists = false) :
    (devMain tauri env).launched = [] ∧ (devMain tauri env).exitCode = some 1 := by
  unfold devMain check_node_modules
  rw [h]
  exact ⟨rfl, rfl⟩

/-- C8 witness: concrete dev environment without `node_modules`, web
mode. -/
theorem missing_node_modules_fatal_witness :
    (devMain false c8Env).launched = [] ∧ (devMain false c8Env).exitCode = some 1 :=
  missing_node_modules_fatal false c8Env rfl

/-- C9: the external-script step and both scans return `True` on every
possible outcome, so the quality pipeline exits 0 exactly when the type
check succeeds. -/
theorem quality_steps_always_pass (quick : Bool) (env : CheckEnv) :
    run_code_quality_check env.scriptExists env.scriptRaises env.scriptExit = true ∧
    (search_magic_numbers env.magicEnv).passed = true ∧
    (search_console_log env.consoleEnv).passed = true ∧
    (checkMain quick env = 0 ↔ env.typeCheckOk = true) := by
  have hq1 : run_code_quality_check env.scriptExists env.scriptRaises env.scriptExit = true := by
    unfold run_code_quality_check
    cases env.scriptExists <;> cases env.scriptRaises <;> rfl
  refine ⟨hq1, search_magic_numbers_passed _, search_console_log_passed _, ?_⟩
  cases hq : quick <;> cases htc : env.typeCheckOk <;>
    simp [checkMain, run_type_check, htc, hq1, search_magic_numbers_passed,
      search_console_log_passed]

/-- C9 witness: with a passing type check the quality pipeline exits 0. -/
theorem quality_steps_always_pass_witness :
    checkMain false c9Env = 0 := by
  have h := quality_steps_always_pass false c9Env
  exact h.2.2.2.mpr rfl

/-- C10: invoked with both `--check-only` and `--skip-check`, the build
pipeline spawns no external command at all and exits with status 0,
whatever the packaging mode and the environment. -/
theorem check_only_skip_check_noop (tauri : Bool) (env : BuildEnv) :
    buildMain { tauri := tauri, check_only := true, skip_check := true } env =
      { invoked := [], exitCode := 0 } := by
  rfl

/-- C10 witness: the combined flags on a concrete environment. -/
theorem check_only_skip_check_noop_witness :
    buildMain { tauri := true, check_only := true, skip_check := true }
        { typeCheckOk := false, webBuildOk := false, tauriBuildOk := false } =
      { invoked := [], exitCode := 0 } :=
  check_only_skip_check_noop true
    { typeCheckOk := false, webBuildOk := false, tauriBuildOk := false }
